import Mathlib

/-!
Verification of the Husqvarna Automower BLE integration's connection
coordinator and entity adapters, as a shallow embedding in Lean.

The embedding models the three source modules:

* `coordinator.py` — `HusqvarnaCoordinator` with `_async_find_device`,
  `_async_update_data`, `async_execute_command`, `async_shutdown`, and the
  `SCAN_INTERVAL` constant.  The external BLE client (`Mower`), the
  `bleak_retry_connector` helper, and the platform Bluetooth layer are
  collaborators: their behaviour within one operation is captured by an
  oracle record `MowerBehavior`, and the client's connection state by
  `Client`.  Python exceptions become an explicit `Exn` type carried in
  `Except`.
* `sensor.py` — `HusqvarnaAutomowerBleSensor.native_value`.
* `binary_sensor.py` — `HusqvarnaAutomowerBleBinarySensor.is_on`.

A separate small-step system (`Sys`, `Step`) models the asyncio event loop
interleaving of lock-guarded operations, with each operation's sequence of
client calls derived from the same oracle.
-/

/-- Python exceptions relevant to the coordinator: `BleakError`,
`TimeoutError`, Home Assistant's `UpdateFailed(msg)`, `ValueError` (raised by
an enum constructor on a value outside the enum), and any other exception
(indexed by a tag). -/
inductive Exn where
  | bleak
  | timeoutErr
  | updateFailed (msg : String)
  | valueError
  | other (n : Nat)
deriving DecidableEq

/-- A Python `datetime`: `aware` is true when `tzinfo` is set, `stamp` is an
abstract time payload. -/
structure PyDateTime where
  aware : Bool
  stamp : Nat
deriving DecidableEq

/-- A Python runtime value as stored in the coordinator's data mapping or
returned by an entity state property (`pyNone` is Python `None`). -/
inductive Value where
  | int (n : Int)
  | str (s : String)
  | bool (b : Bool)
  | dt (d : PyDateTime)
  | pyNone
deriving DecidableEq

/-- The statistics dictionary returned by `Mower.mower_statistics` with its six
documented counters. -/
structure Stats where
  totalRunningTime : Int
  totalCuttingTime : Int
  totalChargingTime : Int
  totalSearchingTime : Int
  numberOfCollisions : Int
  numberOfChargingCycles : Int
deriving DecidableEq

/-- Outcome of `Mower.connect(device)`: it returns `ResponseResult.OK`,
returns some non-OK `ResponseResult`, or raises. -/
inductive ConnectOutcome where
  | ok
  | notOk
  | raises (e : Exn)
deriving DecidableEq

/-- Connection state of the BLE client; `connected` is what `is_connected()`
reports.  A successful `connect` sets it, `disconnect` clears it. -/
structure Client where
  connected : Bool
deriving DecidableEq

/-- Oracle fixing what each external call performed during one coordinator
operation would do: `close_stale_connections_by_address`, `Mower.connect`, the
seven mandatory field reads (indexed 0–6 in source order: battery_level,
is_charging, mower_mode, mower_state, mower_activity, mower_error,
mower_next_start_time), `Mower.mower_statistics`, `Mower.disconnect`, the
callable passed to `async_execute_command`, and the current wall-clock time
used for `datetime.now()`. -/
structure MowerBehavior where
  closeStaleOutcome : Option Exn
  connectOutcome : ConnectOutcome
  readOutcome : Nat → Except Exn Value
  statsOutcome : Except Exn (Option Stats)
  disconnectOutcome : Option Exn
  commandOutcome : Except Exn Value
  now : Nat

/-- The coordinator's data mapping, a Python dict from string keys to values,
kept in insertion order. -/
abbrev Data := List (String × Value)

/-- Python dict assignment `d[k] = v`: replace the binding if the key exists,
otherwise append. -/
def dset : Data → String → Value → Data
  | [], k, v => [(k, v)]
  | (k', v') :: rest, k, v =>
      if k' = k then (k, v) :: rest else (k', v') :: dset rest k v

/-- Python dict lookup, `none` when the key is absent. -/
def dget : Data → String → Option Value
  | [], _ => none
  | (k', v') :: rest, k => if k' = k then some v' else dget rest k

/-- Embeds `_async_find_device`: clear stale cached connections for the
address, resolve a device handle, then `connect`.  A non-OK connect result
raises `UpdateFailed("Failed to connect")`; a `TimeoutError` or `BleakError`
raised by `connect` is caught and converted to the same `UpdateFailed`; any
other exception (including one from clearing stale connections) propagates
unchanged.  On success the client is connected. -/
def findDevice (b : MowerBehavior) (c : Client) : Except Exn Client :=
  match b.closeStaleOutcome with
  | some e => .error e
  | none =>
      match b.connectOutcome with
      | .ok => .ok { c with connected := true }
      | .notOk => .error (.updateFailed "Failed to connect")
      | .raises e =>
          if e = Exn.timeoutErr ∨ e = Exn.bleak then
            .error (.updateFailed "Failed to connect")
          else .error e

/-- Embeds the seven mandatory field reads of `_async_update_data`, assigning
`data[key]` after each read in source order; the first raising read aborts the
sequence. -/
def readMandatoryFields (b : MowerBehavior) (d : Data) : Except Exn Data := do
  let d := dset d "battery_level" (← b.readOutcome 0)
  let d := dset d "is_charging" (← b.readOutcome 1)
  let d := dset d "mode" (← b.readOutcome 2)
  let d := dset d "state" (← b.readOutcome 3)
  let d := dset d "activity" (← b.readOutcome 4)
  let d := dset d "error" (← b.readOutcome 5)
  let d := dset d "next_start_time" (← b.readOutcome 6)
  return d

/-- Embeds the best-effort statistics block of `_async_update_data`: fetch
`mower_statistics`; on any exception log a warning and continue without the
statistics keys; when the result is not `None`, assign the six counters.
Returns the data together with whether a statistics failure was logged. -/
def addStats (b : MowerBehavior) (d : Data) : Data × Bool :=
  match b.statsOutcome with
  | .error _ => (d, true)
  | .ok none => (d, false)
  | .ok (some s) =>
      (dset (dset (dset (dset (dset (dset d
        "total_running_time" (.int s.totalRunningTime))
        "total_cutting_time" (.int s.totalCuttingTime))
        "total_charging_time" (.int s.totalChargingTime))
        "total_searching_time" (.int s.totalSearchingTime))
        "number_of_collisions" (.int s.numberOfCollisions))
        "number_of_charging_cycles" (.int s.numberOfChargingCycles), false)

/-- Outcome of one `_async_update_data` call: the returned data or raised
exception, the client state on exit, whether `async_update_listeners` was
invoked, the `_last_successful_update` field on exit, and whether a
statistics failure was logged. -/
structure PollOutcome where
  result : Except Exn Data
  client : Client
  listenersNotified : Bool
  lastSuccessfulUpdate : Option Nat
  loggedStatsFailure : Bool

/-- Embeds `_async_update_data`, the body executed under `_connection_lock`.
First phase: if not connected, `_async_find_device`, with an
`except BleakError` handler that notifies listeners and raises
`UpdateFailed("Failed to connect")` — any other exception from this phase
propagates without notification and without reaching the `finally` block.
Second phase: the mandatory reads and statistics inside
`try/except BleakError/except Exception/finally`; both handlers notify
listeners and raise `UpdateFailed`; the `finally` disconnects when connected,
and an exception raised by `disconnect` there supersedes the result, as in
Python. -/
def updateData (b : MowerBehavior) (c : Client) (prevLast : Option Nat) :
    PollOutcome :=
  match (if c.connected then Except.ok c else findDevice b c :
      Except Exn Client) with
  | .error e =>
      if e = Exn.bleak then
        { result := .error (.updateFailed "Failed to connect"), client := c,
          listenersNotified := true, lastSuccessfulUpdate := prevLast,
          loggedStatsFailure := false }
      else
        { result := .error e, client := c, listenersNotified := false,
          lastSuccessfulUpdate := prevLast, loggedStatsFailure := false }
  | .ok c1 =>
      let c2 : Client := if c1.connected then { connected := false } else c1
      let fin : Except Exn Data → Except Exn Data := fun res =>
        if c1.connected then
          match b.disconnectOutcome with
          | some e => .error e
          | none => res
        else res
      match (do
          let d ← readMandatoryFields b []
          return addStats b d : Except Exn (Data × Bool)) with
      | .ok (d, lg) =>
          { result := fin (.ok d), client := c2, listenersNotified := false,
            lastSuccessfulUpdate := some b.now, loggedStatsFailure := lg }
      | .error e =>
          if e = Exn.bleak then
            { result :=
                fin (.error (.updateFailed "Error getting data from device")),
              client := c2, listenersNotified := true,
              lastSuccessfulUpdate := prevLast, loggedStatsFailure := false }
          else
            { result :=
                fin (.error (.updateFailed "Unexpected error fetching data")),
              client := c2, listenersNotified := true,
              lastSuccessfulUpdate := prevLast, loggedStatsFailure := false }

/-- The framework's publication step: a value returned by
`_async_update_data` replaces the published snapshot; a raise leaves it
unchanged. -/
def publish (prev : Data) (r : Except Exn Data) : Data :=
  match r with
  | .ok d => d
  | .error _ => prev

/-- Embeds the body of `async_execute_command` without its handlers: connect
if not connected (exceptions propagate), then invoke the callable.  Returns
the result or exception together with the client state on exit — note there
is no disconnect step in this path. -/
def commandBody (b : MowerBehavior) (c : Client) : Except Exn Value × Client :=
  match (if c.connected then Except.ok c else findDevice b c :
      Except Exn Client) with
  | .error e => (.error e, c)
  | .ok c1 =>
      match b.commandOutcome with
      | .error e => (.error e, c1)
      | .ok v => (.ok v, c1)

/-- Outcome of one `async_execute_command` call. -/
structure CommandOutcome where
  result : Except Exn Value
  client : Client
  loggedError : Bool

/-- Embeds `async_execute_command`: the body under `_connection_lock` with its
`except BleakError` and `except Exception` handlers, both of which log and
re-raise the caught exception unchanged. -/
def executeCommand (b : MowerBehavior) (c : Client) : CommandOutcome :=
  match commandBody b c with
  | (.ok v, c1) => { result := .ok v, client := c1, loggedError := false }
  | (.error e, c1) => { result := .error e, client := c1, loggedError := true }

/-- Outcome of one `async_shutdown` call. -/
structure ShutdownOutcome where
  scheduleStopped : Bool
  client : Client
  loggedDisconnectWarning : Bool
  raised : Option Exn

/-- Embeds `async_shutdown`: `super().async_shutdown()` stops the polling
schedule, then under `_connection_lock`: if connected, disconnect inside
`try/except Exception`, logging a warning on failure instead of raising. -/
def asyncShutdown (b : MowerBehavior) (c : Client) : ShutdownOutcome :=
  if c.connected then
    match b.disconnectOutcome with
    | none =>
        { scheduleStopped := true, client := { connected := false },
          loggedDisconnectWarning := false, raised := none }
    | some _ =>
        { scheduleStopped := true, client := { connected := false },
          loggedDisconnectWarning := true, raised := none }
  else
    { scheduleStopped := true, client := c,
      loggedDisconnectWarning := false, raised := none }

/-- Embeds `SCAN_INTERVAL = timedelta(seconds=600)`, in seconds. -/
def SCAN_INTERVAL : Nat := 600

/-- The coordinator fields set by `HusqvarnaCoordinator.__init__`: the device
identity, the update interval handed to the base class, and
`_last_successful_update`. -/
structure HusqvarnaCoordinator where
  address : String
  channelId : String
  model : String
  updateInterval : Nat
  lastSuccessfulUpdate : Option Nat
deriving DecidableEq

/-- Embeds `HusqvarnaCoordinator.__init__`: the constructor takes the device
identity but no interval parameter; `update_interval` is always the module
constant `SCAN_INTERVAL`. -/
def initCoordinator (address channelId model : String) : HusqvarnaCoordinator :=
  { address := address, channelId := channelId, model := model,
    updateInterval := SCAN_INTERVAL, lastSuccessfulUpdate := none }

/-- Formalisation of "the interval is configurable at coordinator
construction": two constructions can yield different update intervals. -/
def intervalConfigurableAtConstruction : Prop :=
  ∃ a₁ c₁ m₁ a₂ c₂ m₂ : String,
    (initCoordinator a₁ c₁ m₁).updateInterval ≠
      (initCoordinator a₂ c₂ m₂).updateInterval

/-- External enum and timezone collaborators used by `sensor.py`:
`ModeOfOperation`, `MowerState`, `MowerActivity`, `ErrorCodes` (each a validity
predicate over integer codes and a name function), and `dt_util.as_local`. -/
structure EnumDefs where
  modeValid : Int → Bool
  modeName : Int → String
  stateValid : Int → Bool
  stateName : Int → String
  activityValid : Int → Bool
  activityName : Int → String
  errorValid : Int → Bool
  errorName : Int → String
  asLocal : PyDateTime → PyDateTime

/-- A Python `IntEnum` constructor applied to a stored value: an integer (or a
boolean, which Python treats as an integer) inside the enum yields the member
and its `.name`; anything else raises `ValueError`. -/
def enumCtor (valid : Int → Bool) (name : Int → String) :
    Value → Except Exn String
  | .int n => if valid n then .ok (name n) else .error .valueError
  | .bool b =>
      let n : Int := if b then 1 else 0
      if valid n then .ok (name n) else .error .valueError
  | _ => .error .valueError

/-- Embeds the `try` body of `HusqvarnaAutomowerBleSensor.native_value`: a
missing key returns `None`; the `mode`/`state`/`activity`/`error` keys are
decoded through their enum constructor (which may raise); `next_start_time`
keeps an aware datetime, localises a naive one, and is replaced by `None` for
any non-datetime value; every other key returns the stored value unchanged. -/
def nativeValueRaw (en : EnumDefs) (d : Data) (key : String) :
    Except Exn Value :=
  match dget d key with
  | none => .ok Value.pyNone
  | some v =>
      if key = "mode" then (enumCtor en.modeValid en.modeName v).map Value.str
      else if key = "state" then
        (enumCtor en.stateValid en.stateName v).map Value.str
      else if key = "activity" then
        (enumCtor en.activityValid en.activityName v).map Value.str
      else if key = "error" then
        (enumCtor en.errorValid en.errorName v).map Value.str
      else if key = "next_start_time" then
        match v with
        | .pyNone => .ok Value.pyNone
        | .dt t => .ok (.dt (if t.aware then t else en.asLocal t))
        | _ => .ok Value.pyNone
      else .ok v

/-- Embeds `HusqvarnaAutomowerBleSensor.native_value`: the `try` body wrapped
in `except Exception`, which logs and returns `None`. -/
def nativeValue (en : EnumDefs) (d : Data) (key : String) : Value :=
  match nativeValueRaw en d key with
  | .ok v => v
  | .error _ => Value.pyNone

/-- Embeds the `try` body of `HusqvarnaAutomowerBleBinarySensor.is_on`: a
missing key returns `None`; a boolean is returned as-is; an integer or string
is converted with `bool(...)`; any other value type logs a warning and
returns `None`. -/
def isOnRaw (d : Data) (key : String) : Except Exn (Option Bool) :=
  match dget d key with
  | none => .ok none
  | some v =>
      match v with
      | .bool b => .ok (some b)
      | .int n => .ok (some (n != 0))
      | .str s => .ok (some (s != ""))
      | _ => .ok none

/-- Embeds `HusqvarnaAutomowerBleBinarySensor.is_on`: the `try` body wrapped
in `except Exception`, which logs and returns `None`. -/
def isOn (d : Data) (key : String) : Option Bool :=
  match isOnRaw d key with
  | .ok r => r
  | .error _ => none

/-- A call to a collaborator made by a coordinator operation while it holds
`_connection_lock`; each such call is an `await` (or a synchronous query) on
the shared connection. -/
inductive Call where
  | isConnected
  | closeStale
  | resolve
  | connect
  | read (i : Nat)
  | stats
  | disconnect
  | command
deriving DecidableEq

/-- An atomic step of an operation in the event-loop model: taking the lock,
performing one collaborator call, or releasing the lock. -/
inductive Act where
  | acquire
  | call (c : Call)
  | release
deriving DecidableEq

/-- The remaining program of one cooperatively scheduled operation. -/
abbrev Prog := List Act

def isCall : Act → Bool
  | .call _ => true
  | _ => false

/-- Recognises the residue of an operation that holds the lock: zero or more
collaborator calls followed by the final `release`. -/
def critSuffixB : Prog → Bool
  | [] => false
  | [Act.release] => true
  | a :: rest => isCall a && critSuffixB rest

/-- Recognises a not-yet-started operation: `acquire`, then calls, then
`release`. -/
def wfProgB : Prog → Bool
  | Act.acquire :: rest => critSuffixB rest
  | _ => false

/-- Trace of the mandatory-field read calls starting at field `i`, paired with
whether all remaining reads succeed. -/
def readCallsFrom (b : MowerBehavior) (i : Nat) : List Call × Bool :=
  if _h : i < 7 then
    match b.readOutcome i with
    | .ok _ =>
        let r := readCallsFrom b (i + 1)
        (Call.read i :: r.1, r.2)
    | .error _ => ([Call.read i], false)
  else ([], true)
termination_by 7 - i

/-- Call trace of the poll once connected: the mandatory reads, the statistics
call when the reads all succeed, then the `finally` block's `is_connected`
query and `disconnect`. -/
def pollCallsBody (b : MowerBehavior) : List Call :=
  let r := readCallsFrom b 0
  r.1 ++ (if r.2 then [Call.stats] else []) ++
    [Call.isConnected, Call.disconnect]

/-- Call trace of `_async_update_data` under the lock, for a given oracle and
initial client state. -/
def pollCalls (b : MowerBehavior) (c : Client) : List Call :=
  Call.isConnected ::
    (if c.connected then pollCallsBody b
     else
       Call.closeStale ::
         match b.closeStaleOutcome with
         | some _ => []
         | none =>
             Call.resolve :: Call.connect ::
               match b.connectOutcome with
               | .ok => pollCallsBody b
               | .notOk => []
               | .raises _ => [])

/-- Call trace of `async_execute_command` under the lock: note the absence of
any disconnect call. -/
def commandCalls (b : MowerBehavior) (c : Client) : List Call :=
  Call.isConnected ::
    (if c.connected then [Call.command]
     else
       Call.closeStale ::
         match b.closeStaleOutcome with
         | some _ => []
         | none =>
             Call.resolve :: Call.connect ::
               match b.connectOutcome with
               | .ok => [Call.command]
               | .notOk => []
               | .raises _ => [])

/-- Call trace of `async_shutdown` under the lock. -/
def shutdownCalls (_b : MowerBehavior) (c : Client) : List Call :=
  Call.isConnected :: (if c.connected then [Call.disconnect] else [])

/-- One queued operation: a scheduled poll, a command request, or shutdown,
with the oracle and client state it would run against. -/
inductive OpSpec where
  | poll (b : MowerBehavior) (c : Client)
  | command (b : MowerBehavior) (c : Client)
  | shutdown (b : MowerBehavior) (c : Client)

/-- The collaborator calls the operation makes while holding the lock. -/
def OpSpec.calls : OpSpec → List Call
  | .poll b c => pollCalls b c
  | .command b c => commandCalls b c
  | .shutdown b c => shutdownCalls b c

/-- The operation as an event-loop program: acquire the lock, make the calls,
release the lock. -/
def OpSpec.prog (o : OpSpec) : Prog :=
  Act.acquire :: (o.calls.map Act.call ++ [Act.release])

/-- State of the event loop: who holds `_connection_lock` (by operation
index), and each operation's remaining program. -/
structure Sys where
  lock : Option Nat
  procs : List Prog

/-- Cooperative scheduling: at a suspension point any runnable operation may
advance by one atomic step.  `acquire` needs the lock free; a collaborator
call and `release` just consume the head of the program. -/
inductive Step : Sys → Nat × Act → Sys → Prop where
  | acq {s : Sys} {i : Nat} {rest : Prog} :
      s.procs[i]? = some (Act.acquire :: rest) → s.lock = none →
      Step s (i, Act.acquire) ⟨some i, s.procs.set i rest⟩
  | call {s : Sys} {i : Nat} {cl : Call} {rest : Prog} :
      s.procs[i]? = some (Act.call cl :: rest) →
      Step s (i, Act.call cl) ⟨s.lock, s.procs.set i rest⟩
  | rel {s : Sys} {i : Nat} {rest : Prog} :
      s.procs[i]? = some (Act.release :: rest) →
      Step s (i, Act.release) ⟨none, s.procs.set i rest⟩

/-- A step by some operation with some action. -/
def SysStep (s t : Sys) : Prop := ∃ l, Step s l t

/-- Reachability in the event-loop model. -/
abbrev Reach : Sys → Sys → Prop := Relation.ReflTransGen SysStep

/-- A program not inside its critical section: untouched, or finished. -/
def progOk (p : Prog) : Bool := wfProgB p || p.isEmpty

/-- The lock invariant at a given lock value and program list: with the lock
free every operation is outside its critical section; with the lock held by
`i`, operation `i` is inside its critical section and every other operation is
outside. -/
def InvAt (lk : Option Nat) (procs : List Prog) : Prop :=
  match lk with
  | none => ∀ (i : Nat) (p : Prog), procs[i]? = some p → progOk p = true
  | some i =>
      (∃ p : Prog, procs[i]? = some p ∧ critSuffixB p = true) ∧
        ∀ (j : Nat) (p : Prog), j ≠ i → procs[j]? = some p → progOk p = true

/-- The lock invariant of a system state. -/
def LockInv (s : Sys) : Prop := InvAt s.lock s.procs

/-- The initial event-loop state for a queue of operations: lock free, every
operation at its full program. -/
def initSys (specs : List OpSpec) : Sys := ⟨none, specs.map OpSpec.prog⟩

/-- Whether an `_async_update_data` result is a raise rather than a return. -/
def isError (r : Except Exn Data) : Bool :=
  match r with
  | .ok _ => false
  | .error _ => true

/-- The connect failures named by the specification: `connect` returns a
non-OK result, or raises `TimeoutError` or `BleakError`. -/
def connectFailsBenign (b : MowerBehavior) : Prop :=
  b.connectOutcome = ConnectOutcome.notOk ∨
  b.connectOutcome = ConnectOutcome.raises Exn.timeoutErr ∨
  b.connectOutcome = ConnectOutcome.raises Exn.bleak

/-- A concrete oracle in which every collaborator call succeeds. -/
def bBase : MowerBehavior :=
  { closeStaleOutcome := none, connectOutcome := .ok,
    readOutcome := fun j => .ok (.int (Int.ofNat j)), statsOutcome := .ok none,
    disconnectOutcome := none, commandOutcome := .ok (.int 0), now := 42 }

/-- A concrete oracle in which `connect` raises `TimeoutError`. -/
def bConnTimeout : MowerBehavior :=
  { bBase with connectOutcome := .raises Exn.timeoutErr }

/-- A concrete oracle in which the fourth mandatory read raises
`BleakError`. -/
def bReadFail : MowerBehavior :=
  { bBase with readOutcome := fun j =>
      if j = 3 then .error .bleak else .ok (.int 0) }

/-- A concrete oracle in which only the statistics read raises. -/
def bStatsFail : MowerBehavior :=
  { bBase with statsOutcome := .error .bleak }

/-- A concrete oracle in which the command callable raises `BleakError`. -/
def bCmdFail : MowerBehavior :=
  { bBase with commandOutcome := .error .bleak }

/-- A concrete instantiation of the external enum and timezone
collaborators: each enum accepts only the code 0. -/
def enSample : EnumDefs :=
  { modeValid := fun n => n == 0, modeName := fun _ => "AUTO",
    stateValid := fun n => n == 0, stateName := fun _ => "PAUSED",
    activityValid := fun n => n == 0, activityName := fun _ => "NONE",
    errorValid := fun n => n == 0, errorName := fun _ => "NO_ERROR",
    asLocal := fun t => { t with aware := true } }

/-- A concrete data mapping holding an out-of-enum mode code, a non-datetime
next start time, and a datetime where the binary sensor expects a boolean. -/
def dC10 : Data :=
  [("mode", Value.int 99), ("next_start_time", Value.str "x"),
   ("is_charging", Value.dt ⟨true, 0⟩)]

theorem dget_dset_self (d : Data) (k : String) (v : Value) :
    dget (dset d k v) k = some v := by
  induction d with
  | nil => simp [dset, dget]
  | cons hd tl ih =>
      obtain ⟨k', v'⟩ := hd
      by_cases h : k' = k
      · simp [dset, dget, h]
      · simp [dset, dget, h, ih]

theorem dget_dset_ne (d : Data) (k k' : String) (v : Value) (h : k ≠ k') :
    dget (dset d k v) k' = dget d k' := by
  induction d with
  | nil => simp [dset, dget, h]
  | cons hd tl ih =>
      obtain ⟨k0, v0⟩ := hd
      by_cases h0 : k0 = k
      · subst h0
        simp [dset, dget, h]
      · simp [dset, dget, h0, ih]

theorem critSuffixB_call (c : Call) (rest : Prog) :
    critSuffixB (Act.call c :: rest) = critSuffixB rest := by
  cases rest <;> simp [critSuffixB, isCall]

theorem critSuffixB_acquire_cons (rest : Prog) :
    critSuffixB (Act.acquire :: rest) = false := by
  cases rest <;> simp [critSuffixB, isCall]

theorem critSuffixB_release_cons (a : Act) (rest : Prog) :
    critSuffixB (Act.release :: a :: rest) = false := by
  simp [critSuffixB, isCall]

theorem rest_nil_of_critSuffixB_release {rest : Prog}
    (h : critSuffixB (Act.release :: rest) = true) : rest = [] := by
  cases rest with
  | nil => rfl
  | cons a tl => rw [critSuffixB_release_cons] at h; exact absurd h (by simp)

theorem critSuffixB_calls (l : List Call) :
    critSuffixB (l.map Act.call ++ [Act.release]) = true := by
  induction l with
  | nil => rfl
  | cons hd tl ih =>
      rw [List.map_cons, List.cons_append, critSuffixB_call]
      exact ih

theorem wfProgB_opProg (o : OpSpec) : wfProgB o.prog = true := by
  rw [OpSpec.prog, wfProgB]
  exact critSuffixB_calls o.calls

theorem not_crit_of_progOk {p : Prog} (h : progOk p = true) :
    critSuffixB p = false := by
  rcases p with _ | ⟨a, rest⟩
  · rfl
  · cases a with
    | acquire => exact critSuffixB_acquire_cons rest
    | call c => simp [progOk, wfProgB, List.isEmpty] at h
    | release => simp [progOk, wfProgB, List.isEmpty] at h

theorem progOk_nil : progOk [] = true := rfl

theorem progOk_call_cons (cl : Call) (rest : Prog) :
    progOk (Act.call cl :: rest) = false := by
  simp [progOk, wfProgB, List.isEmpty]

theorem progOk_release_cons (rest : Prog) :
    progOk (Act.release :: rest) = false := by
  simp [progOk, wfProgB, List.isEmpty]

theorem crit_of_progOk_acquire {rest : Prog}
    (h : progOk (Act.acquire :: rest) = true) : critSuffixB rest = true := by
  simpa [progOk, wfProgB, List.isEmpty] using h

/-- The lock invariant is preserved by every event-loop step. -/
theorem lockInv_step {s s' : Sys} {l : Nat × Act} (hInv : LockInv s)
    (hStep : Step s l s') : LockInv s' := by
  cases hStep with
  | acq hp hl =>
      rename_i i rest
      unfold LockInv at hInv ⊢
      rw [hl] at hInv
      simp only [InvAt] at hInv ⊢
      have hlen : i < s.procs.length := (List.getElem?_eq_some.mp hp).1
      have hcrit : critSuffixB rest = true :=
        crit_of_progOk_acquire (hInv i _ hp)
      refine ⟨⟨rest, ?_, hcrit⟩, ?_⟩
      · simpa using List.getElem?_set_eq_of_lt rest hlen
      · intro j p hji hp'
        rw [List.getElem?_set_ne (fun h => hji h.symm)] at hp'
        exact hInv j p hp'
  | call hp =>
      rename_i i cl rest
      unfold LockInv at hInv ⊢
      cases hLock : s.lock with
      | none =>
          rw [hLock] at hInv
          simp only [InvAt] at hInv
          have := hInv i _ hp
          rw [progOk_call_cons] at this
          exact absurd this (by simp)
      | some j =>
          rw [hLock] at hInv
          simp only [InvAt] at hInv ⊢
          obtain ⟨⟨r, hr, hcr⟩, hothers⟩ := hInv
          by_cases hij : i = j
          · subst hij
            rw [hp] at hr
            injection hr with hr'
            rw [← hr', critSuffixB_call] at hcr
            have hlen : i < s.procs.length := (List.getElem?_eq_some.mp hp).1
            refine ⟨⟨rest, ?_, hcr⟩, ?_⟩
            · simpa using List.getElem?_set_eq_of_lt rest hlen
            · intro k p hki hp'
              rw [List.getElem?_set_ne (fun h => hki h.symm)] at hp'
              exact hothers k p hki hp'
          · have := hothers i _ hij hp
            rw [progOk_call_cons] at this
            exact absurd this (by simp)
  | rel hp =>
      rename_i i rest
      unfold LockInv at hInv ⊢
      cases hLock : s.lock with
      | none =>
          rw [hLock] at hInv
          simp only [InvAt] at hInv
          have := hInv i _ hp
          rw [progOk_release_cons] at this
          exact absurd this (by simp)
      | some j =>
          rw [hLock] at hInv
          simp only [InvAt] at hInv ⊢
          obtain ⟨⟨r, hr, hcr⟩, hothers⟩ := hInv
          by_cases hij : i = j
          · subst hij
            rw [hp] at hr
            injection hr with hr'
            rw [← hr'] at hcr
            have hnil : rest = [] := rest_nil_of_critSuffixB_release hcr
            subst hnil
            intro k p hp'
            by_cases hki : k = i
            · subst hki
              have hlen : k < s.procs.length := (List.getElem?_eq_some.mp hp).1
              rw [List.getElem?_set_eq_of_lt _ hlen] at hp'
              injection hp' with hp''
              rw [← hp'']
              exact progOk_nil
            · rw [List.getElem?_set_ne (fun h => hki h.symm)] at hp'
              exact hothers k p hki hp'
          · have := hothers i _ hij hp
            rw [progOk_release_cons] at this
            exact absurd this (by simp)

/-- The lock invariant holds in every reachable state. -/
theorem lockInv_reach {s s' : Sys} (hInv : LockInv s) (h : Reach s s') :
    LockInv s' := by
  induction h with
  | refl => exact hInv
  | tail _ hstep ih =>
      obtain ⟨l, hl⟩ := hstep
      exact lockInv_step ih hl

theorem lockInv_initSys (specs : List OpSpec) : LockInv (initSys specs) := by
  unfold LockInv initSys
  simp only [InvAt]
  intro i p hp
  rw [List.getElem?_map] at hp
  cases ho : specs[i]? with
  | none => rw [ho] at hp; simp at hp
  | some o =>
      rw [ho] at hp
      simp only [Option.map_some'] at hp
      injection hp with hp'
      rw [← hp']
      simp [progOk, wfProgB_opProg]

/-- At most one operation is inside its critical section in any state
satisfying the lock invariant. -/
theorem mutex_of_lockInv {s : Sys} (hInv : LockInv s) :
    ∀ (i j : Nat) (p q : Prog), s.procs[i]? = some p → s.procs[j]? = some q →
      critSuffixB p = true → critSuffixB q = true → i = j := by
  intro i j p q hi hj hp hq
  unfold LockInv at hInv
  cases hLock : s.lock with
  | none =>
      rw [hLock] at hInv
      simp only [InvAt] at hInv
      have := not_crit_of_progOk (hInv i p hi)
      rw [hp] at this
      exact absurd this (by simp)
  | some k =>
      rw [hLock] at hInv
      simp only [InvAt] at hInv
      obtain ⟨⟨r, hr, hcr⟩, hothers⟩ := hInv
      by_cases hik : i = k
      · by_cases hjk : j = k
        · rw [hik, hjk]
        · have := not_crit_of_progOk (hothers j q hjk hj)
          rw [hq] at this
          exact absurd this (by simp)
      · have := not_crit_of_progOk (hothers i p hik hi)
        rw [hp] at this
        exact absurd this (by simp)

/-- A collaborator call can only be performed by the operation holding the
lock, in any state satisfying the lock invariant. -/
theorem call_needs_lock {s s' : Sys} {i : Nat} {cl : Call}
    (hInv : LockInv s) (hStep : Step s (i, Act.call cl) s') :
    s.lock = some i := by
  cases hStep with
  | call hp =>
      unfold LockInv at hInv
      cases hLock : s.lock with
      | none =>
          rw [hLock] at hInv
          simp only [InvAt] at hInv
          have := hInv i _ hp
          rw [progOk_call_cons] at this
          exact absurd this (by simp)
      | some j =>
          rw [hLock] at hInv
          simp only [InvAt] at hInv
          by_cases hij : i = j
          · rw [hij]
          · have := hInv.2 i _ hij hp
            rw [progOk_call_cons] at this
            exact absurd this (by simp)

/-- When every mandatory read succeeds, `readMandatoryFields` returns the
seven assignments in source order. -/
theorem readMandatory_ok {b : MowerBehavior} {v : Nat → Value}
    (hv : ∀ j, j < 7 → b.readOutcome j = .ok (v j)) (d : Data) :
    readMandatoryFields b d =
      .ok (dset (dset (dset (dset (dset (dset (dset d
        "battery_level" (v 0)) "is_charging" (v 1)) "mode" (v 2))
        "state" (v 3)) "activity" (v 4)) "error" (v 5))
        "next_start_time" (v 6)) := by
  have h0 := hv 0 (by norm_num)
  have h1 := hv 1 (by norm_num)
  have h2 := hv 2 (by norm_num)
  have h3 := hv 3 (by norm_num)
  have h4 := hv 4 (by norm_num)
  have h5 := hv 5 (by norm_num)
  have h6 := hv 6 (by norm_num)
  simp [readMandatoryFields, h0, h1, h2, h3, h4, h5, h6, Bind.bind,
    Except.bind, Pure.pure, Except.pure]

/-- The first raising mandatory read aborts `readMandatoryFields` with that
exception. -/
theorem readMandatory_error {b : MowerBehavior} {k : Nat} {e : Exn}
    (hk7 : k < 7) (hpre : ∀ j, j < k → ∃ v, b.readOutcome j = .ok v)
    (hk : b.readOutcome k = .error e) (d : Data) :
    readMandatoryFields b d = .error e := by
  interval_cases k
  · simp [readMandatoryFields, hk, Bind.bind, Except.bind]
  · obtain ⟨v0, h0⟩ := hpre 0 (by norm_num)
    simp [readMandatoryFields, h0, hk, Bind.bind, Except.bind]
  · obtain ⟨v0, h0⟩ := hpre 0 (by norm_num)
    obtain ⟨v1, h1⟩ := hpre 1 (by norm_num)
    simp [readMandatoryFields, h0, h1, hk, Bind.bind, Except.bind]
  · obtain ⟨v0, h0⟩ := hpre 0 (by norm_num)
    obtain ⟨v1, h1⟩ := hpre 1 (by norm_num)
    obtain ⟨v2, h2⟩ := hpre 2 (by norm_num)
    simp [readMandatoryFields, h0, h1, h2, hk, Bind.bind, Except.bind]
  · obtain ⟨v0, h0⟩ := hpre 0 (by norm_num)
    obtain ⟨v1, h1⟩ := hpre 1 (by norm_num)
    obtain ⟨v2, h2⟩ := hpre 2 (by norm_num)
    obtain ⟨v3, h3⟩ := hpre 3 (by norm_num)
    simp [readMandatoryFields, h0, h1, h2, h3, hk, Bind.bind, Except.bind]
  · obtain ⟨v0, h0⟩ := hpre 0 (by norm_num)
    obtain ⟨v1, h1⟩ := hpre 1 (by norm_num)
    obtain ⟨v2, h2⟩ := hpre 2 (by norm_num)
    obtain ⟨v3, h3⟩ := hpre 3 (by norm_num)
    obtain ⟨v4, h4⟩ := hpre 4 (by norm_num)
    simp [readMandatoryFields, h0, h1, h2, h3, h4, hk, Bind.bind,
      Except.bind]
  · obtain ⟨v0, h0⟩ := hpre 0 (by norm_num)
    obtain ⟨v1, h1⟩ := hpre 1 (by norm_num)
    obtain ⟨v2, h2⟩ := hpre 2 (by norm_num)
    obtain ⟨v3, h3⟩ := hpre 3 (by norm_num)
    obtain ⟨v4, h4⟩ := hpre 4 (by norm_num)
    obtain ⟨v5, h5⟩ := hpre 5 (by norm_num)
    simp [readMandatoryFields, h0, h1, h2, h3, h4, h5, hk, Bind.bind,
      Except.bind]


/-- A successful `_async_find_device` always leaves the client connected. -/
theorem findDevice_ok {b : MowerBehavior} {c c1 : Client}
    (h : findDevice b c = .ok c1) : c1 = ⟨true⟩ := by
  unfold findDevice at h
  cases hcs : b.closeStaleOutcome with
  | some e => rw [hcs] at h; simp at h
  | none =>
      rw [hcs] at h
      cases hco : b.connectOutcome with
      | ok =>
          rw [hco] at h
          simp only [Except.ok.injEq] at h
          rw [← h]
      | notOk => rw [hco] at h; simp at h
      | raises e =>
          rw [hco] at h
          by_cases hb : e = Exn.timeoutErr ∨ e = Exn.bleak <;>
            simp [hb] at h

/-- C1: the claim fails on the code: `async_execute_command` contains no
disconnect step, so a command that connects and succeeds returns with the
BLE connection still open (`is_connected()` true) when the lock is
released. -/
theorem C1_counterexample_command_leaves_connection_open :
    (executeCommand bBase ⟨false⟩).result = .ok (.int 0) ∧
    (executeCommand bBase ⟨false⟩).client.connected = true := by
  exact ⟨rfl, rfl⟩

/-- C1 (amended): for every poll operation, success or raise, the connection
is closed (`is_connected()` false) before `_async_update_data` returns and
before the lock is released; the command path, by contrast, performs no
disconnect and returns with the connection open whenever it connected
successfully. -/
theorem C1_amended_poll_always_disconnects :
    (∀ (b : MowerBehavior) (c : Client) (prevLast : Option Nat),
        (updateData b c prevLast).client.connected = false) ∧
    (∀ (b : MowerBehavior) (c : Client),
        c.connected = false → b.closeStaleOutcome = none →
        b.connectOutcome = ConnectOutcome.ok →
        (executeCommand b c).client.connected = true) := by
  constructor
  · intro b c prevLast
    obtain ⟨cc⟩ := c
    cases cc with
    | false =>
        cases hfd : findDevice b ⟨false⟩ with
        | error e =>
            by_cases hb : e = Exn.bleak <;>
              simp [updateData, hfd, hb]
        | ok c1 =>
            have hc1 := findDevice_ok hfd
            subst hc1
            cases hbody : (do
                let d ← readMandatoryFields b []
                return addStats b d : Except Exn (Data × Bool)) with
            | ok dl =>
                obtain ⟨d, lg⟩ := dl
                simp [updateData, hfd, hbody]
            | error e =>
                by_cases hb : e = Exn.bleak <;>
                  simp [updateData, hfd, hbody, hb]
    | true =>
        cases hbody : (do
            let d ← readMandatoryFields b []
            return addStats b d : Except Exn (Data × Bool)) with
        | ok dl =>
            obtain ⟨d, lg⟩ := dl
            simp [updateData, hbody]
        | error e =>
            by_cases hb : e = Exn.bleak <;>
              simp [updateData, hbody, hb]
  · intro b c hnc hcs hco
    obtain ⟨cc⟩ := c
    simp only [Client.connected] at hnc
    subst hnc
    simp [executeCommand, commandBody, findDevice, hcs, hco]
    cases b.commandOutcome <;> simp

/-- Witness for the amended C1 at concrete inputs. -/
theorem C1_amended_witness :
    (updateData bBase ⟨false⟩ none).client.connected = false ∧
    (executeCommand bBase ⟨false⟩).client.connected = true :=
  ⟨C1_amended_poll_always_disconnects.1 bBase ⟨false⟩ none,
   C1_amended_poll_always_disconnects.2 bBase ⟨false⟩ rfl rfl rfl⟩

/-- C3: a `BleakError` during any of the seven mandatory reads aborts the
poll: the result is a raise (the `UpdateFailed` of the read handler whenever
teardown succeeds), the published snapshot is retained unchanged, and the
last-successful-update timestamp is not advanced. -/
theorem C3_mandatory_read_failure_aborts (b : MowerBehavior) (c : Client)
    (prevLast : Option Nat) (prevData : Data) (k : Nat)
    (hreach : c.connected = true ∨
      (b.closeStaleOutcome = none ∧ b.connectOutcome = ConnectOutcome.ok))
    (hk7 : k < 7) (hpre : ∀ j, j < k → ∃ v, b.readOutcome j = .ok v)
    (hk : b.readOutcome k = .error .bleak) :
    isError (updateData b c prevLast).result = true ∧
    publish prevData (updateData b c prevLast).result = prevData ∧
    (updateData b c prevLast).lastSuccessfulUpdate = prevLast ∧
    (b.disconnectOutcome = none →
      (updateData b c prevLast).result =
        .error (.updateFailed "Error getting data from device")) := by
  have hread := readMandatory_error hk7 hpre hk ([] : Data)
  have hbody : (do
      let d ← readMandatoryFields b []
      return addStats b d : Except Exn (Data × Bool)) = .error .bleak := by
    simp [hread, Bind.bind, Except.bind]
  obtain ⟨cc⟩ := c
  cases cc with
  | true =>
      cases hd : b.disconnectOutcome with
      | none => simp [updateData, hbody, hd, isError, publish]
      | some e => simp [updateData, hbody, hd, isError, publish]
  | false =>
      rcases hreach with hcn | ⟨hcs, hco⟩
      · simp at hcn
      · cases hd : b.disconnectOutcome with
        | none =>
            simp [updateData, findDevice, hcs, hco, hbody, hd, isError,
              publish]
        | some e =>
            simp [updateData, findDevice, hcs, hco, hbody, hd, isError,
              publish]

/-- Witness for C3 at a concrete oracle whose fourth read raises. -/
theorem C3_witness :
    isError (updateData bReadFail ⟨true⟩ none).result = true ∧
    publish [("battery_level", Value.int 87)]
        (updateData bReadFail ⟨true⟩ none).result =
      [("battery_level", Value.int 87)] ∧
    (updateData bReadFail ⟨true⟩ none).lastSuccessfulUpdate = none ∧
    (bReadFail.disconnectOutcome = none →
      (updateData bReadFail ⟨true⟩ none).result =
        .error (.updateFailed "Error getting data from device")) :=
  C3_mandatory_read_failure_aborts bReadFail ⟨true⟩ none
    [("battery_level", Value.int 87)] 3 (Or.inl rfl) (by norm_num)
    (fun j hj => ⟨Value.int 0, by
      have hne : j ≠ 3 := by omega
      simp [bReadFail, bBase, hne]⟩)
    rfl

/-- C4: when all seven mandatory reads succeed and the statistics read
raises, the failure is logged and the poll still succeeds: the returned
snapshot holds the seven mandatory keys, none of the six statistics keys,
and the update timestamp is recorded. -/
theorem C4_stats_failure_keeps_mandatory_fields (b : MowerBehavior)
    (c : Client) (prevLast : Option Nat) (v : Nat → Value)
    (hreach : c.connected = true ∨
      (b.closeStaleOutcome = none ∧ b.connectOutcome = ConnectOutcome.ok))
    (hv : ∀ j, j < 7 → b.readOutcome j = .ok (v j))
    (hstats : ∃ ex, b.statsOutcome = .error ex)
    (hdisc : b.disconnectOutcome = none) :
    ∃ d, (updateData b c prevLast).result = .ok d ∧
      dget d "battery_level" = some (v 0) ∧
      dget d "is_charging" = some (v 1) ∧
      dget d "mode" = some (v 2) ∧
      dget d "state" = some (v 3) ∧
      dget d "activity" = some (v 4) ∧
      dget d "error" = some (v 5) ∧
      dget d "next_start_time" = some (v 6) ∧
      dget d "total_running_time" = none ∧
      dget d "total_cutting_time" = none ∧
      dget d "total_charging_time" = none ∧
      dget d "total_searching_time" = none ∧
      dget d "number_of_collisions" = none ∧
      dget d "number_of_charging_cycles" = none ∧
      (updateData b c prevLast).lastSuccessfulUpdate = some b.now ∧
      (updateData b c prevLast).loggedStatsFailure = true := by
  obtain ⟨ex, hstats⟩ := hstats
  have hread := readMandatory_ok hv ([] : Data)
  have hbody : (do
      let d ← readMandatoryFields b []
      return addStats b d : Except Exn (Data × Bool)) =
      .ok (dset (dset (dset (dset (dset (dset (dset []
        "battery_level" (v 0)) "is_charging" (v 1)) "mode" (v 2))
        "state" (v 3)) "activity" (v 4)) "error" (v 5))
        "next_start_time" (v 6), true) := by
    simp [hread, Bind.bind, Except.bind, addStats, hstats, Pure.pure,
      Except.pure]
  have hmain : (updateData b c prevLast).result =
      .ok (dset (dset (dset (dset (dset (dset (dset []
        "battery_level" (v 0)) "is_charging" (v 1)) "mode" (v 2))
        "state" (v 3)) "activity" (v 4)) "error" (v 5))
        "next_start_time" (v 6)) ∧
      (updateData b c prevLast).lastSuccessfulUpdate = some b.now ∧
      (updateData b c prevLast).loggedStatsFailure = true := by
    obtain ⟨cc⟩ := c
    cases cc with
    | true => simp [updateData, hbody, hdisc]
    | false =>
        rcases hreach with hcn | ⟨hcs, hco⟩
        · simp at hcn
        · simp [updateData, findDevice, hcs, hco, hbody, hdisc]
  refine ⟨_, hmain.1, ?_, ?_, ?_, ?_, ?_, ?_, ?_, ?_, ?_, ?_, ?_, ?_, ?_,
    hmain.2.1, hmain.2.2⟩ <;>
    simp [dget_dset_self, dget_dset_ne, dget]

/-- Witness for C4 at a concrete oracle whose statistics read raises. -/
theorem C4_witness :
    ∃ d, (updateData bStatsFail ⟨false⟩ none).result = .ok d ∧
      dget d "battery_level" = some (Value.int (Int.ofNat 0)) ∧
      dget d "is_charging" = some (Value.int (Int.ofNat 1)) ∧
      dget d "mode" = some (Value.int (Int.ofNat 2)) ∧
      dget d "state" = some (Value.int (Int.ofNat 3)) ∧
      dget d "activity" = some (Value.int (Int.ofNat 4)) ∧
      dget d "error" = some (Value.int (Int.ofNat 5)) ∧
      dget d "next_start_time" = some (Value.int (Int.ofNat 6)) ∧
      dget d "total_running_time" = none ∧
      dget d "total_cutting_time" = none ∧
      dget d "total_charging_time" = none ∧
      dget d "total_searching_time" = none ∧
      dget d "number_of_collisions" = none ∧
      dget d "number_of_charging_cycles" = none ∧
      (updateData bStatsFail ⟨false⟩ none).lastSuccessfulUpdate =
        some bStatsFail.now ∧
      (updateData bStatsFail ⟨false⟩ none).loggedStatsFailure = true :=
  C4_stats_failure_keeps_mandatory_fields bStatsFail ⟨false⟩ none
    (fun j => Value.int (Int.ofNat j)) (Or.inr ⟨rfl, rfl⟩)
    (fun _ _ => rfl) ⟨Exn.bleak, rfl⟩ rfl

/-- C5: the claim fails on the code: when `connect` raises `TimeoutError`,
`_async_find_device` converts it to `UpdateFailed`, which the
`except BleakError` handler in `_async_update_data` does not catch, so
`async_update_listeners` is never invoked on this path even though the
claim requires subscribers to be notified. -/
theorem C5_counterexample_no_listener_notification :
    (updateData bConnTimeout ⟨false⟩ none).result =
      .error (.updateFailed "Failed to connect") ∧
    (updateData bConnTimeout ⟨false⟩ none).listenersNotified = false :=
  ⟨rfl, rfl⟩

/-- C5 (amended): a connect failure (non-OK result, `TimeoutError`, or
`BleakError`) aborts the poll with `UpdateFailed("Failed to connect")`, the
previously published snapshot and timestamp are unchanged, the client state
is untouched, and listeners are not notified by the coordinator on this
path. -/
theorem C5_amended_connect_failure_aborts (b : MowerBehavior) (c : Client)
    (prevLast : Option Nat) (prevData : Data)
    (hnc : c.connected = false) (hcs : b.closeStaleOutcome = none)
    (hcf : connectFailsBenign b) :
    (updateData b c prevLast).result =
      .error (.updateFailed "Failed to connect") ∧
    publish prevData (updateData b c prevLast).result = prevData ∧
    (updateData b c prevLast).lastSuccessfulUpdate = prevLast ∧
    (updateData b c prevLast).listenersNotified = false ∧
    (updateData b c prevLast).client = c := by
  obtain ⟨cc⟩ := c
  simp only [Client.connected] at hnc
  subst hnc
  rcases hcf with hco | hco | hco <;>
    simp [updateData, findDevice, hcs, hco, publish, connectFailsBenign]

/-- Witness for the amended C5 at a concrete oracle whose connect times
out. -/
theorem C5_amended_witness :
    (updateData bConnTimeout ⟨false⟩ (some 7)).result =
      .error (.updateFailed "Failed to connect") ∧
    publish [("mode", Value.int 0)]
        (updateData bConnTimeout ⟨false⟩ (some 7)).result =
      [("mode", Value.int 0)] ∧
    (updateData bConnTimeout ⟨false⟩ (some 7)).lastSuccessfulUpdate =
      some 7 ∧
    (updateData bConnTimeout ⟨false⟩ (some 7)).listenersNotified = false ∧
    (updateData bConnTimeout ⟨false⟩ (some 7)).client = ⟨false⟩ :=
  C5_amended_connect_failure_aborts bConnTimeout ⟨false⟩ (some 7)
    [("mode", Value.int 0)] rfl rfl (Or.inr (Or.inl rfl))

/-- C6: every error raised during `async_execute_command` — from connecting
or from the command itself — is logged and re-raised to the caller
unchanged, and a successful command result is returned unchanged: the
coordinator never swallows a command failure. -/
theorem C6_command_errors_reraised (b : MowerBehavior) (c : Client) :
    (∀ e, (commandBody b c).1 = .error e →
        (executeCommand b c).result = .error e ∧
        (executeCommand b c).loggedError = true) ∧
    (∀ v, (commandBody b c).1 = .ok v →
        (executeCommand b c).result = .ok v ∧
        (executeCommand b c).loggedError = false) := by
  constructor
  · intro e h
    cases hcb : commandBody b c with
    | mk r c1 =>
        rw [hcb] at h
        simp only [] at h
        subst h
        simp [executeCommand, hcb]
  · intro v h
    cases hcb : commandBody b c with
    | mk r c1 =>
        rw [hcb] at h
        simp only [] at h
        subst h
        simp [executeCommand, hcb]

/-- Witness for C6 at a concrete oracle whose command raises
`BleakError`. -/
theorem C6_witness :
    (executeCommand bCmdFail ⟨true⟩).result = .error Exn.bleak ∧
    (executeCommand bCmdFail ⟨true⟩).loggedError = true :=
  (C6_command_errors_reraised bCmdFail ⟨true⟩).1 Exn.bleak rfl

/-- C2: for every queue of scheduled polls, command requests, and shutdown
operations and every reachable interleaving, at most one operation is inside
its lock-guarded connect/poll/disconnect cycle at any instant, and every
collaborator call is performed by the operation holding the lock — so no two
cycles ever interleave. -/
theorem C2_lock_mutual_exclusion (specs : List OpSpec) (s : Sys)
    (h : Reach (initSys specs) s) :
    (∀ (i j : Nat) (p q : Prog), s.procs[i]? = some p →
        s.procs[j]? = some q →
        critSuffixB p = true → critSuffixB q = true → i = j) ∧
    (∀ (i : Nat) (cl : Call) (s' : Sys),
        Step s (i, Act.call cl) s' → s.lock = some i) := by
  have hInv := lockInv_reach (lockInv_initSys specs) h
  exact ⟨mutex_of_lockInv hInv, fun i cl s' hs => call_needs_lock hInv hs⟩

/-- Witness for C2 at a concrete two-operation queue in its initial state. -/
theorem C2_witness :
    (∀ (i j : Nat) (p q : Prog),
        (initSys [OpSpec.poll bBase ⟨false⟩,
          OpSpec.command bBase ⟨false⟩]).procs[i]? = some p →
        (initSys [OpSpec.poll bBase ⟨false⟩,
          OpSpec.command bBase ⟨false⟩]).procs[j]? = some q →
        critSuffixB p = true → critSuffixB q = true → i = j) ∧
    (∀ (i : Nat) (cl : Call) (s' : Sys),
        Step (initSys [OpSpec.poll bBase ⟨false⟩,
          OpSpec.command bBase ⟨false⟩]) (i, Act.call cl) s' →
        (initSys [OpSpec.poll bBase ⟨false⟩,
          OpSpec.command bBase ⟨false⟩]).lock = some i) :=
  C2_lock_mutual_exclusion
    [OpSpec.poll bBase ⟨false⟩, OpSpec.command bBase ⟨false⟩] _
    Relation.ReflTransGen.refl

/-- C7: `async_shutdown` stops the polling schedule, never raises (a
disconnect failure is logged, not propagated), leaves `is_connected()` false,
and — because its body runs under `_connection_lock` — cannot overlap an
in-flight poll's critical section, so it completes only after the poll's
teardown. -/
theorem C7_shutdown_stops_and_disconnects :
    (∀ (b : MowerBehavior) (c : Client),
        (asyncShutdown b c).raised = none ∧
        (asyncShutdown b c).scheduleStopped = true ∧
        (asyncShutdown b c).client.connected = false ∧
        (asyncShutdown b c).loggedDisconnectWarning =
          (c.connected && b.disconnectOutcome.isSome)) ∧
    (∀ (bp bs : MowerBehavior) (cp cs : Client) (s : Sys),
        Reach (initSys [OpSpec.poll bp cp, OpSpec.shutdown bs cs]) s →
        ∀ p q : Prog, s.procs[0]? = some p → s.procs[1]? = some q →
          critSuffixB p = true → critSuffixB q = true → False) := by
  constructor
  · intro b c
    obtain ⟨cc⟩ := c
    cases cc <;> cases hd : b.disconnectOutcome <;>
      simp [asyncShutdown, hd]
  · intro bp bs cp cs s h p q h0 h1 hp hq
    have hInv := lockInv_reach (lockInv_initSys _) h
    have h01 := mutex_of_lockInv hInv 0 1 p q h0 h1 hp hq
    exact absurd h01 (by norm_num)

/-- Witness for C7 at a concrete connected client whose disconnect raises,
and at the initial state of a concrete poll/shutdown queue. -/
theorem C7_witness :
    ((asyncShutdown { bBase with disconnectOutcome := some Exn.bleak }
        ⟨true⟩).raised = none ∧
      (asyncShutdown { bBase with disconnectOutcome := some Exn.bleak }
        ⟨true⟩).scheduleStopped = true ∧
      (asyncShutdown { bBase with disconnectOutcome := some Exn.bleak }
        ⟨true⟩).client.connected = false ∧
      (asyncShutdown { bBase with disconnectOutcome := some Exn.bleak }
        ⟨true⟩).loggedDisconnectWarning =
        ((⟨true⟩ : Client).connected &&
          ({ bBase with disconnectOutcome := some Exn.bleak } :
            MowerBehavior).disconnectOutcome.isSome)) ∧
    (∀ p q : Prog,
        (initSys [OpSpec.poll bBase ⟨true⟩,
          OpSpec.shutdown bBase ⟨true⟩]).procs[0]? = some p →
        (initSys [OpSpec.poll bBase ⟨true⟩,
          OpSpec.shutdown bBase ⟨true⟩]).procs[1]? = some q →
        critSuffixB p = true → critSuffixB q = true → False) :=
  ⟨C7_shutdown_stops_and_disconnects.1
      { bBase with disconnectOutcome := some Exn.bleak } ⟨true⟩,
   C7_shutdown_stops_and_disconnects.2 bBase bBase ⟨true⟩ ⟨true⟩ _
      Relation.ReflTransGen.refl⟩

/-- C8: in both entity adapters a key missing from the coordinator's data
mapping yields the unavailable result `None` rather than an error. -/
theorem C8_missing_key_yields_none (en : EnumDefs) (d : Data) (key : String)
    (h : dget d key = none) :
    nativeValue en d key = Value.pyNone ∧ isOn d key = none := by
  constructor <;> simp [nativeValue, nativeValueRaw, isOn, isOnRaw, h]

/-- Witness for C8 at a concrete mapping missing the requested key. -/
theorem C8_witness :
    nativeValue enSample [("battery_level", Value.int 87)] "mode" =
      Value.pyNone ∧
    isOn [("battery_level", Value.int 87)] "mode" = none :=
  C8_missing_key_yields_none enSample [("battery_level", Value.int 87)]
    "mode" (by simp [dget])

/-- C9: the claim fails on the code: `HusqvarnaCoordinator.__init__` takes no
interval parameter — `update_interval` is always the module constant
`SCAN_INTERVAL`, so the interval is not configurable at coordinator
construction. -/
theorem C9_counterexample_interval_not_configurable :
    ¬ intervalConfigurableAtConstruction := by
  rintro ⟨a₁, c₁, m₁, a₂, c₂, m₂, h⟩
  exact h rfl

/-- C9 (amended): the poll schedule interval is the fixed constant 600
seconds, supplied to the base coordinator at construction; the constructor
exposes no interval parameter, so every constructed coordinator polls every
600 seconds. -/
theorem C9_amended_fixed_interval (address channelId model : String) :
    (initCoordinator address channelId model).updateInterval = 600 ∧
    SCAN_INTERVAL = 600 :=
  ⟨rfl, rfl⟩

/-- C10: the adapter state properties are total: any exception raised inside
the `native_value` or `is_on` body is caught and yields `None`; in
particular an out-of-enum integer code, a non-datetime `next_start_time`,
and a value of unexpected type for the binary sensor all yield `None`. -/
theorem C10_adapter_state_total (en : EnumDefs) (d : Data) :
    (∀ (key : String) (e : Exn), nativeValueRaw en d key = .error e →
        nativeValue en d key = Value.pyNone) ∧
    (∀ (key : String) (e : Exn), isOnRaw d key = .error e →
        isOn d key = none) ∧
    (∀ v, dget d "next_start_time" = some v → (∀ t, v ≠ Value.dt t) →
        nativeValue en d "next_start_time" = Value.pyNone) ∧
    (∀ n, dget d "mode" = some (Value.int n) → en.modeValid n = false →
        nativeValue en d "mode" = Value.pyNone) ∧
    (∀ (key : String) v, dget d key = some v →
        (∀ bv, v ≠ Value.bool bv) → (∀ n, v ≠ Value.int n) →
        (∀ s, v ≠ Value.str s) → isOn d key = none) := by
  refine ⟨?_, ?_, ?_, ?_, ?_⟩
  · intro key e h
    simp [nativeValue, h]
  · intro key e h
    simp [isOn, h]
  · intro v h hdt
    cases v with
    | dt t => exact absurd rfl (hdt t)
    | int n => simp [nativeValue, nativeValueRaw, h]
    | str s => simp [nativeValue, nativeValueRaw, h]
    | bool bv => simp [nativeValue, nativeValueRaw, h]
    | pyNone => simp [nativeValue, nativeValueRaw, h]
  · intro n h hvalid
    simp [nativeValue, nativeValueRaw, h, enumCtor, hvalid, Except.map]
  · intro key v h hbool hint hstr
    cases v with
    | bool bv => exact absurd rfl (hbool bv)
    | int n => exact absurd rfl (hint n)
    | str s => exact absurd rfl (hstr s)
    | dt t => simp [isOn, isOnRaw, h]
    | pyNone => simp [isOn, isOnRaw, h]

/-- Witness for C10 at a concrete mapping holding an out-of-enum mode code,
a non-datetime next start time, and a datetime where the binary sensor
expects a boolean. -/
theorem C10_witness :
    nativeValue enSample dC10 "mode" = Value.pyNone ∧
    nativeValue enSample dC10 "next_start_time" = Value.pyNone ∧
    isOn dC10 "is_charging" = none :=
  ⟨(C10_adapter_state_total enSample dC10).1 "mode" Exn.valueError rfl,
   (C10_adapter_state_total enSample dC10).2.2.1 (Value.str "x") rfl
     (fun t => by simp),
   (C10_adapter_state_total enSample dC10).2.2.2.2 "is_charging"
     (Value.dt ⟨true, 0⟩) rfl (fun bv => by simp) (fun n => by simp)
     (fun s => by simp)⟩
